import Mathlib

/-!
Verification of the PPP / IFE currency model (`src/ppp_model.py`).

The repository consists of two pure arithmetic functions:

* `calculate_ppp domestic_price foreign_price current_exchange_rate` returns
  a record with the PPP-implied exchange rate `domestic_price / foreign_price`
  and the misalignment percentage
  `(current_exchange_rate - ppp_implied_rate) / ppp_implied_rate * 100`.
* `calculate_ife domestic_interest foreign_interest` returns a record with
  the exact predicted change `((1 + domestic) / (1 + foreign) - 1) * 100`,
  the linear approximation `(domestic - foreign) * 100`, and the interest
  differential `(domestic - foreign) * 100`.

We embed the numeric computations over `ℚ` (the formulas are exact rational
arithmetic).  In Python, dividing by zero raises `ZeroDivisionError`; we model
each division with a guard on its denominator, so a function that would raise
returns `none` and a normal return is `some` of the result record.
-/

/-- Result record of `calculate_ppp` (`dict` in the source). -/
structure PppResult where
  ppp_implied_rate : ℚ
  misalignment_percent : ℚ
  deriving Repr, DecidableEq

/-- Result record of `calculate_ife` (`dict` in the source). -/
structure IfeResult where
  predicted_change_exact : ℚ
  predicted_change_approx : ℚ
  interest_differential : ℚ
  deriving Repr, DecidableEq

/-- `calculate_ppp` from `src/ppp_model.py`.  The first division
`domestic_price / foreign_price` raises when `foreign_price = 0`; the second
division by `ppp_implied_rate` raises when that computed rate is `0`. -/
def calculate_ppp (domestic_price foreign_price current_exchange_rate : ℚ) :
    Option PppResult :=
  if foreign_price = 0 then none
  else
    let ppp_implied_rate := domestic_price / foreign_price
    if ppp_implied_rate = 0 then none
    else
      let misalignment_pct :=
        ((current_exchange_rate - ppp_implied_rate) / ppp_implied_rate) * 100
      some { ppp_implied_rate := ppp_implied_rate
             misalignment_percent := misalignment_pct }

/-- `calculate_ife` from `src/ppp_model.py`.  The division by
`1 + foreign_interest` raises when `foreign_interest = -1`. -/
def calculate_ife (domestic_interest foreign_interest : ℚ) : Option IfeResult :=
  if 1 + foreign_interest = 0 then none
  else
    let predicted_change :=
      ((1 + domestic_interest) / (1 + foreign_interest) - 1) * 100
    let approx_change := (domestic_interest - foreign_interest) * 100
    some { predicted_change_exact := predicted_change
           predicted_change_approx := approx_change
           interest_differential := (domestic_interest - foreign_interest) * 100 }

/-- Helper: closed form of a successful `calculate_ppp` call. -/
theorem calculate_ppp_eq (d f c : ℚ) (hf : f ≠ 0) (hd : d ≠ 0) :
    calculate_ppp d f c = some ⟨d / f, ((c - d / f) / (d / f)) * 100⟩ := by
  unfold calculate_ppp
  rw [if_neg hf, if_neg (div_ne_zero hd hf)]

/-- Helper: closed form of a successful `calculate_ife` call. -/
theorem calculate_ife_eq (d f : ℚ) (hf : 1 + f ≠ 0) :
    calculate_ife d f =
      some ⟨((1 + d) / (1 + f) - 1) * 100, (d - f) * 100, (d - f) * 100⟩ := by
  unfold calculate_ife
  rw [if_neg hf]

/-- C1 (counterexample): with `domestic_price = 0` and `foreign_price = 1 ≠ 0`,
`calculate_ppp` does not return a record at all: the computed
`ppp_implied_rate` is `0` and the misalignment division raises. -/
theorem calculate_ppp_domestic_zero_faults : calculate_ppp 0 1 1 = none := by
  norm_num [calculate_ppp]

/-- C1 (amended): for `foreign_price ≠ 0` and `domestic_price ≠ 0`,
`calculate_ppp` returns the record with `ppp_implied_rate = d / f` and
`misalignment_percent = (c - d / f) / (d / f) * 100`. -/
theorem calculate_ppp_formulas (d f c : ℚ) (hf : f ≠ 0) (hd : d ≠ 0) :
    calculate_ppp d f c = some ⟨d / f, ((c - d / f) / (d / f)) * 100⟩ :=
  calculate_ppp_eq d f c hf hd

/-- C1 witness: the amended theorem evaluated at `d = 3`, `f = 2`, `c = 1`. -/
theorem calculate_ppp_formulas_witness :
    (2 : ℚ) ≠ 0 ∧ (3 : ℚ) ≠ 0 ∧
      calculate_ppp 3 2 1 =
        some ⟨(3 : ℚ) / 2, ((1 - (3 : ℚ) / 2) / ((3 : ℚ) / 2)) * 100⟩ :=
  ⟨by norm_num, by norm_num, calculate_ppp_formulas 3 2 1 (by norm_num) (by norm_num)⟩

/-- C2: for `foreign_interest ≠ -1`, `calculate_ife` returns the record whose
exact field is `((1 + d) / (1 + f) - 1) * 100` and whose approximate field is
`(d - f) * 100`. -/
theorem calculate_ife_formulas (d f : ℚ) (hf : f ≠ -1) :
    calculate_ife d f =
      some ⟨((1 + d) / (1 + f) - 1) * 100, (d - f) * 100, (d - f) * 100⟩ :=
  calculate_ife_eq d f (by intro h; exact hf (by linarith))

/-- C2 witness: the theorem evaluated at `d = 1`, `f = 0`. -/
theorem calculate_ife_formulas_witness :
    (0 : ℚ) ≠ -1 ∧
      calculate_ife 1 0 =
        some ⟨((1 + (1 : ℚ)) / (1 + 0) - 1) * 100, ((1 : ℚ) - 0) * 100,
              ((1 : ℚ) - 0) * 100⟩ :=
  ⟨by norm_num, calculate_ife_formulas 1 0 (by norm_num)⟩

/-- C3: `calculate_ppp` raises a division-by-zero fault exactly when
`foreign_price = 0`, or `foreign_price ≠ 0` and `domestic_price = 0`; on all
other inputs it returns a record. -/
theorem calculate_ppp_fault_iff (d f c : ℚ) :
    calculate_ppp d f c = none ↔ (f = 0 ∨ (f ≠ 0 ∧ d = 0)) := by
  unfold calculate_ppp
  by_cases hf : f = 0
  · simp [hf]
  · simp [hf, div_eq_zero_iff]

/-- C4: `calculate_ife` raises a division-by-zero fault exactly when
`foreign_interest = -1`; on every other pair of inputs it returns a record. -/
theorem calculate_ife_fault_iff (d f : ℚ) :
    calculate_ife d f = none ↔ f = -1 := by
  unfold calculate_ife
  by_cases hf : 1 + f = 0
  · simp [hf]; linarith
  · simp [hf]; intro h; exact hf (by rw [h]; ring)

/-- C5: when the current exchange rate equals the PPP-implied rate `d / f`
(for positive prices), the reported misalignment is exactly zero. -/
theorem calculate_ppp_parity (d f : ℚ) (hd : 0 < d) (hf : 0 < f) :
    ∃ r, calculate_ppp d f (d / f) = some r ∧ r.misalignment_percent = 0 := by
  refine ⟨⟨d / f, ((d / f - d / f) / (d / f)) * 100⟩,
    calculate_ppp_eq d f (d / f) hf.ne' hd.ne', ?_⟩
  simp

/-- C5 witness: parity at `d = 3`, `f = 2`. -/
theorem calculate_ppp_parity_witness :
    (0 : ℚ) < 3 ∧ (0 : ℚ) < 2 ∧
      ∃ r, calculate_ppp 3 2 ((3 : ℚ) / 2) = some r ∧ r.misalignment_percent = 0 :=
  ⟨by norm_num, by norm_num, calculate_ppp_parity 3 2 (by norm_num) (by norm_num)⟩

/-- C6: whenever `calculate_ife` returns a record, its `interest_differential`
field equals its `predicted_change_approx` field, and both equal
`(d - f) * 100`. -/
theorem calculate_ife_differential_eq_approx (d f : ℚ) (r : IfeResult)
    (h : calculate_ife d f = some r) :
    r.interest_differential = r.predicted_change_approx ∧
      r.interest_differential = (d - f) * 100 ∧
      r.predicted_change_approx = (d - f) * 100 := by
  unfold calculate_ife at h
  split_ifs at h
  cases h
  exact ⟨rfl, rfl, rfl⟩

/-- C6 witness: the theorem evaluated at `d = 1`, `f = 0` with its record. -/
theorem calculate_ife_differential_eq_approx_witness :
    calculate_ife 1 0 = some ⟨100, 100, 100⟩ ∧
      ((100 : ℚ) = 100 ∧ (100 : ℚ) = ((1 : ℚ) - 0) * 100 ∧
        (100 : ℚ) = ((1 : ℚ) - 0) * 100) :=
  ⟨by norm_num [calculate_ife],
    calculate_ife_differential_eq_approx 1 0 ⟨100, 100, 100⟩
      (by norm_num [calculate_ife])⟩

/-- C7 (counterexample): at `foreign_interest = -2 ≠ -1`, raising the domestic
rate from `0` to `1` makes `predicted_change_exact` fall from `-200` to
`-300`, so the claimed strict increase fails. -/
theorem calculate_ife_mono_counterexample :
    (-2 : ℚ) ≠ -1 ∧ (0 : ℚ) < 1 ∧
      ∃ r₁ r₂, calculate_ife 0 (-2) = some r₁ ∧ calculate_ife 1 (-2) = some r₂ ∧
        ¬ r₁.predicted_change_exact < r₂.predicted_change_exact := by
  refine ⟨by norm_num, by norm_num, ⟨-200, 200, 200⟩, ⟨-300, 300, 300⟩, ?_, ?_, by norm_num⟩
  · norm_num [calculate_ife]
  · norm_num [calculate_ife]

/-- C7 (amended): for fixed `foreign_interest > -1`, increasing the domestic
rate strictly increases both `predicted_change_exact` and
`predicted_change_approx`. -/
theorem calculate_ife_mono (d₁ d₂ f : ℚ) (hf : -1 < f) (hd : d₁ < d₂)
    (r₁ r₂ : IfeResult) (h₁ : calculate_ife d₁ f = some r₁)
    (h₂ : calculate_ife d₂ f = some r₂) :
    r₁.predicted_change_exact < r₂.predicted_change_exact ∧
      r₁.predicted_change_approx < r₂.predicted_change_approx := by
  have hfz : 1 + f ≠ 0 := by intro h; linarith
  unfold calculate_ife at h₁ h₂
  rw [if_neg hfz] at h₁ h₂
  cases h₁
  cases h₂
  have hpos : (0 : ℚ) < 1 + f := by linarith
  constructor
  · simp only
    have h := (div_lt_div_iff_of_pos_right hpos).mpr
      (show (1 : ℚ) + d₁ < 1 + d₂ by linarith)
    nlinarith [h]
  · simp only
    nlinarith

/-- C7 witness: strict monotonicity at `f = 0`, `d₁ = 0 < d₂ = 1`. -/
theorem calculate_ife_mono_witness :
    (-1 : ℚ) < 0 ∧ (0 : ℚ) < 1 ∧
      calculate_ife 0 0 = some ⟨0, 0, 0⟩ ∧ calculate_ife 1 0 = some ⟨100, 100, 100⟩ ∧
        ((0 : ℚ) < 100 ∧ (0 : ℚ) < 100) :=
  ⟨by norm_num, by norm_num, by norm_num [calculate_ife], by norm_num [calculate_ife],
    calculate_ife_mono 0 1 0 (by norm_num) (by norm_num) ⟨0, 0, 0⟩ ⟨100, 100, 100⟩
      (by norm_num [calculate_ife]) (by norm_num [calculate_ife])⟩

/-- C9: `calculate_ife 0.045 0.025` returns `predicted_change_exact = 80/41`,
which rounds to `1.95` at two decimals (it is within `0.005` of `1.95`),
while `predicted_change_approx` and `interest_differential` are exactly `2`. -/
theorem calculate_ife_scenario :
    ∃ r, calculate_ife (9 / 200) (1 / 40) = some r ∧
      r.predicted_change_exact = 80 / 41 ∧
      |r.predicted_change_exact - 39 / 20| < 1 / 200 ∧
      r.predicted_change_approx = 2 ∧ r.interest_differential = 2 := by
  refine ⟨⟨80 / 41, 2, 2⟩, ?_, rfl, by norm_num [abs], rfl, rfl⟩
  norm_num [calculate_ife]

/-- C10: for `foreign_interest > -1`, the sign of `predicted_change_exact`
matches the sign of `domestic_interest - foreign_interest`: positive exactly
when `d > f`, zero exactly when `d = f`, negative exactly when `d < f`. -/
theorem calculate_ife_sign (d f : ℚ) (hf : -1 < f) (r : IfeResult)
    (h : calculate_ife d f = some r) :
    (0 < r.predicted_change_exact ↔ f < d) ∧
      (r.predicted_change_exact = 0 ↔ d = f) ∧
      (r.predicted_change_exact < 0 ↔ d < f) := by
  have hpos : (0 : ℚ) < 1 + f := by linarith
  unfold calculate_ife at h
  rw [if_neg hpos.ne'] at h
  cases h
  simp only
  have key : (((1 + d) / (1 + f) - 1) * 100) * (1 + f) = 100 * (d - f) := by
    field_simp
    ring
  refine ⟨⟨fun h1 => ?_, fun h1 => ?_⟩, ⟨fun h1 => ?_, fun h1 => ?_⟩,
    ⟨fun h1 => ?_, fun h1 => ?_⟩⟩
  · nlinarith
  · nlinarith
  · nlinarith [key]
  · rw [h1]
    field_simp
  · nlinarith
  · nlinarith

/-- C10 witness: sign equivalences at `d = 1`, `f = 0`. -/
theorem calculate_ife_sign_witness :
    (-1 : ℚ) < 0 ∧ calculate_ife 1 0 = some ⟨100, 100, 100⟩ ∧
      (((0 : ℚ) < 100 ↔ (0 : ℚ) < 1) ∧ ((100 : ℚ) = 0 ↔ (1 : ℚ) = 0) ∧
        ((100 : ℚ) < 0 ↔ (1 : ℚ) < 0)) :=
  ⟨by norm_num, by norm_num [calculate_ife],
    calculate_ife_sign 1 0 (by norm_num) ⟨100, 100, 100⟩ (by norm_num [calculate_ife])⟩

/-- C8: for rate magnitudes below `0.10`, the exact/approx divergence of
`calculate_ife` equals `100 * |f| * |d - f| / (1 + f)` exactly, is bounded by
`(1000/9) * |f| * (|d| + |f|)` — on the order of the product of the rate
magnitudes times 100 — hence stays below `20/9 ≈ 2.2` percentage points; and
(growth) along `d = 0` the divergence strictly increases with the magnitude
of `f`. -/
theorem calculate_ife_divergence :
    (∀ d f : ℚ, |d| < 1 / 10 → |f| < 1 / 10 →
      ∃ r, calculate_ife d f = some r ∧
        |r.predicted_change_exact - r.predicted_change_approx|
          = 100 * (|f| * |d - f|) / (1 + f) ∧
        |r.predicted_change_exact - r.predicted_change_approx|
          ≤ 1000 / 9 * (|f| * (|d| + |f|)) ∧
        |r.predicted_change_exact - r.predicted_change_approx| < 20 / 9) ∧
    (∀ f₁ f₂ : ℚ, 0 ≤ f₁ → f₁ < f₂ →
      ∀ r₁ r₂, calculate_ife 0 f₁ = some r₁ → calculate_ife 0 f₂ = some r₂ →
        |r₁.predicted_change_exact - r₁.predicted_change_approx| <
          |r₂.predicted_change_exact - r₂.predicted_change_approx|) := by
  constructor
  · intro d f hd hf
    obtain ⟨hd1, hd2⟩ := abs_lt.mp hd
    obtain ⟨hf1, hf2⟩ := abs_lt.mp hf
    have hpos : (0 : ℚ) < 1 + f := by linarith
    refine ⟨_, calculate_ife_eq d f hpos.ne', ?_⟩
    simp only
    have hsub : |d - f| ≤ |d| + |f| := abs_sub d f
    have hident : |((1 + d) / (1 + f) - 1) * 100 - (d - f) * 100|
        = 100 * (|f| * |d - f|) / (1 + f) := by
      have he : ((1 + d) / (1 + f) - 1) * 100 - (d - f) * 100
          = 100 * (f * (f - d)) / (1 + f) := by
        field_simp
        ring
      rw [he, abs_div, abs_of_pos hpos, abs_mul, abs_mul, abs_sub_comm f d]
      norm_num
    refine ⟨hident, ?_, ?_⟩
    · rw [hident, div_le_iff₀ hpos]
      have hmul : |f| * |d - f| ≤ |f| * (|d| + |f|) :=
        mul_le_mul_of_nonneg_left hsub (abs_nonneg f)
      have hz : (0 : ℚ) ≤ (|f| * (|d| + |f|)) * (1 + f - 9 / 10) :=
        mul_nonneg (mul_nonneg (abs_nonneg f)
          (add_nonneg (abs_nonneg d) (abs_nonneg f))) (by linarith)
      nlinarith [hmul, hz]
    · rw [hident, div_lt_iff₀ hpos]
      have hX : |f| * (|d| + |f|) < 1 / 50 := by
        have h1 : |f| * (|d| + |f|) ≤ 1 / 10 * (|d| + |f|) :=
          mul_le_mul_of_nonneg_right hf.le
            (add_nonneg (abs_nonneg d) (abs_nonneg f))
        have h2 : (1 / 10 : ℚ) * (|d| + |f|) < 1 / 10 * (2 / 10) := by
          have : |d| + |f| < 2 / 10 := by
            have := abs_lt.mpr ⟨hd1, hd2⟩
            linarith [abs_lt.mp hd, abs_lt.mp hf]
          linarith
        linarith
      have hmul : |f| * |d - f| ≤ |f| * (|d| + |f|) :=
        mul_le_mul_of_nonneg_left hsub (abs_nonneg f)
      nlinarith [hX, hmul]
  · intro f₁ f₂ h0 hlt r₁ r₂ h₁ h₂
    have hp₁ : (0 : ℚ) < 1 + f₁ := by linarith
    have hp₂ : (0 : ℚ) < 1 + f₂ := by linarith
    rw [calculate_ife_eq 0 f₁ hp₁.ne'] at h₁
    rw [calculate_ife_eq 0 f₂ hp₂.ne'] at h₂
    cases Option.some.inj h₁
    cases Option.some.inj h₂
    simp only
    have e₁ : ((1 + (0 : ℚ)) / (1 + f₁) - 1) * 100 - ((0 : ℚ) - f₁) * 100
        = 100 * f₁ ^ 2 / (1 + f₁) := by
      field_simp
      ring
    have e₂ : ((1 + (0 : ℚ)) / (1 + f₂) - 1) * 100 - ((0 : ℚ) - f₂) * 100
        = 100 * f₂ ^ 2 / (1 + f₂) := by
      field_simp
      ring
    rw [e₁, e₂, abs_of_nonneg (by positivity), abs_of_nonneg (by positivity),
      div_lt_div_iff₀ hp₁ hp₂]
    nlinarith [mul_nonneg h0 (h0.trans hlt.le), sq_nonneg f₁, sq_nonneg f₂,
      mul_pos (sub_pos.mpr hlt) (show (0 : ℚ) < f₁ + f₂ + f₁ * f₂ by
        nlinarith [mul_nonneg h0 (h0.trans hlt.le)])]

/-- C8 witness: the divergence bounds evaluated at `d = 1/20`, `f = 1/40`. -/
theorem calculate_ife_divergence_witness :
    |(1 : ℚ) / 20| < 1 / 10 ∧ |(1 : ℚ) / 40| < 1 / 10 ∧
      ∃ r, calculate_ife (1 / 20) (1 / 40) = some r ∧
        |r.predicted_change_exact - r.predicted_change_approx|
          = 100 * (|(1 : ℚ) / 40| * |(1 : ℚ) / 20 - 1 / 40|) / (1 + 1 / 40) ∧
        |r.predicted_change_exact - r.predicted_change_approx|
          ≤ 1000 / 9 * (|(1 : ℚ) / 40| * (|(1 : ℚ) / 20| + |(1 : ℚ) / 40|)) ∧
        |r.predicted_change_exact - r.predicted_change_approx| < 20 / 9 :=
  ⟨by norm_num [abs], by norm_num [abs],
    calculate_ife_divergence.1 (1 / 20) (1 / 40) (by norm_num [abs])
      (by norm_num [abs])⟩
